import Mathlib

/-!
Verification of the Geocache chaincode (src/chaincodes/geocache/src/geocache.ts
and the entity shapes in cache.ts, visitlog.ts, trackable.ts) against its
natural-language specification.

Embedding conventions:
* The Fabric world state is a key-value ledger.  `getState` on an absent key
  yields an empty byte array, on which `JSON.parse` throws; we model the
  ledger as `String → Option Json` where `none` stands for absent/empty.
* Serialization (`Buffer.from(stringify(sortKeys(record)))`, with
  `json-stringify-deterministic` + `sort-keys-recursive`) is modelled as
  building a `Json` object whose keys are listed in sorted order, then
  rendering it deterministically; `JSON.parse` of those bytes is modelled
  at the level of the parsed `Json` value.
* JS `number` fields (GPSX, GPSY) are modelled as `Int`.
* The caller identity (`getUserID`, derived from `ctx.clientIdentity.getID()`)
  is threaded as an explicit `String` parameter `u`.
* `throw new Error(...)` is modelled by `Except.error` with a structured
  error constructor corresponding to the thrown message; since in the source
  every `putState` of an operation happens after all of its throws, an
  erroneous result carries no ledger writes.
-/

namespace Geocache

/-- A JSON value, as produced by `JSON.parse` / consumed by the deterministic
stringifier.  Objects carry their key-value pairs in the order they are
rendered. -/
inductive Json where
  | str : String → Json
  | num : Int → Json
  | bool : Bool → Json
  | arr : List Json → Json
  | obj : List (String × Json) → Json

/-- Property lookup on a parsed JSON object (JS `parsed.Field`). -/
def jsonLookup : List (String × Json) → String → Option Json
  | [], _ => none
  | (k, v) :: rest, key => if k = key then some v else jsonLookup rest key

/-- Minimal JSON string escaping (quote and backslash), enough for the
identifier-like strings stored by this chaincode. -/
def escapeChar (c : Char) : String :=
  if c = '"' then "\\\"" else if c = '\\' then "\\\\" else String.singleton c

/-- Render a JSON string literal. -/
def renderString (s : String) : String :=
  "\"" ++ String.join (s.data.map escapeChar) ++ "\""

mutual

/-- Deterministic rendering of a JSON value, as `json-stringify-deterministic`
does (no whitespace; object keys in the order listed, which the serializers
below produce already sorted). -/
def renderJson : Json → String
  | .str s => renderString s
  | .num n => toString n
  | .bool b => if b then "true" else "false"
  | .arr js => "[" ++ renderJsonList js ++ "]"
  | .obj kvs => "\x7b" ++ renderJsonObj kvs ++ "\x7d"

/-- Render array elements, comma separated. -/
def renderJsonList : List Json → String
  | [] => ""
  | [j] => renderJson j
  | j :: rest => renderJson j ++ "," ++ renderJsonList rest

/-- Render object members, comma separated. -/
def renderJsonObj : List (String × Json) → String
  | [] => ""
  | [(k, v)] => renderString k ++ ":" ++ renderJson v
  | (k, v) :: rest => renderString k ++ ":" ++ renderJson v ++ "," ++ renderJsonObj rest

end

/-- The `Cache` entity of cache.ts. -/
structure Cache where
  ID : String
  Name : String
  Description : String
  GPSX : Int
  GPSY : Int
  Report : String
  Pass : String
  Maintainer : String
  deriving DecidableEq, Repr

/-- The `VisitLog` entity of visitlog.ts; `Trackables?: string[]` is an
optional field, hence `Option`. -/
structure VisitLog where
  ID : String
  Trackables : Option (List String)
  User : String
  Cache : String
  Time : String
  deriving DecidableEq, Repr

/-- The `Trackable` entity of trackable.ts. -/
structure Trackable where
  ID : String
  Name : String
  Inserted : Bool
  VisitLog : String
  deriving DecidableEq, Repr

/-- `serializeCache` up to rendering: `stringify(sortKeys(cache))` lists the
object keys in ascending order (Description, GPSX, GPSY, ID, Maintainer,
Name, Pass, Report). -/
def serializeCacheJson (c : Cache) : Json :=
  .obj [("Description", .str c.Description), ("GPSX", .num c.GPSX),
        ("GPSY", .num c.GPSY), ("ID", .str c.ID),
        ("Maintainer", .str c.Maintainer), ("Name", .str c.Name),
        ("Pass", .str c.Pass), ("Report", .str c.Report)]

/-- `serializeLog` up to rendering: keys in ascending order (Cache, ID, Time,
Trackables, User); as `JSON.stringify`, an `undefined` `Trackables` field is
omitted from the output. -/
def serializeLogJson (v : VisitLog) : Json :=
  .obj ([("Cache", .str v.Cache), ("ID", .str v.ID), ("Time", .str v.Time)] ++
    (match v.Trackables with
     | none => []
     | some ts => [("Trackables", .arr (ts.map .str))]) ++
    [("User", .str v.User)])

/-- `serializeTrackable` up to rendering: keys in ascending order
(ID, Inserted, Name, VisitLog). -/
def serializeTrackableJson (t : Trackable) : Json :=
  .obj [("ID", .str t.ID), ("Inserted", .bool t.Inserted),
        ("Name", .str t.Name), ("VisitLog", .str t.VisitLog)]

/-- `serializeCache`: the bytes written to the ledger. -/
def serializeCacheStr (c : Cache) : String :=
  renderJson (serializeCacheJson c)

/-- `serializeLog`: the bytes written to the ledger. -/
def serializeLogStr (v : VisitLog) : String :=
  renderJson (serializeLogJson v)

/-- `serializeTrackable`: the bytes written to the ledger. -/
def serializeTrackableStr (t : Trackable) : String :=
  renderJson (serializeTrackableJson t)

/-- Decode a JSON array of strings (the `Trackables` member). -/
def decodeStrList : List Json → Option (List String)
  | [] => some []
  | .str s :: rest => (decodeStrList rest).map (fun ts => s :: ts)
  | _ => none

/-- `deserializeCache` (`JSON.parse(data.toString()) as Cache`), modelled on
the parsed JSON value: extract the typed fields of a `Cache`. -/
def deserializeCacheJ : Json → Option Cache
  | .obj kvs =>
    match jsonLookup kvs "ID", jsonLookup kvs "Name",
          jsonLookup kvs "Description", jsonLookup kvs "GPSX",
          jsonLookup kvs "GPSY", jsonLookup kvs "Report",
          jsonLookup kvs "Pass", jsonLookup kvs "Maintainer" with
    | some (.str id), some (.str nm), some (.str de), some (.num gx),
      some (.num gy), some (.str re), some (.str pa), some (.str ma) =>
        some ⟨id, nm, de, gx, gy, re, pa, ma⟩
    | _, _, _, _, _, _, _, _ => none
  | _ => none

/-- `deserializeLog` (`JSON.parse(data.toString()) as VisitLog`), modelled on
the parsed JSON value; a missing `Trackables` member yields `none` for the
optional field. -/
def deserializeLogJ : Json → Option VisitLog
  | .obj kvs =>
    match jsonLookup kvs "ID", jsonLookup kvs "User",
          jsonLookup kvs "Cache", jsonLookup kvs "Time" with
    | some (.str id), some (.str us), some (.str ca), some (.str ti) =>
      match jsonLookup kvs "Trackables" with
      | none => some ⟨id, none, us, ca, ti⟩
      | some (.arr js) => (decodeStrList js).map (fun ts => ⟨id, some ts, us, ca, ti⟩)
      | some _ => none
    | _, _, _, _ => none
  | _ => none

/-- `deserializeTrackable` (`JSON.parse(data.toString()) as Trackable`),
modelled on the parsed JSON value. -/
def deserializeTrackableJ : Json → Option Trackable
  | .obj kvs =>
    match jsonLookup kvs "ID", jsonLookup kvs "Name",
          jsonLookup kvs "Inserted", jsonLookup kvs "VisitLog" with
    | some (.str id), some (.str nm), some (.bool ins), some (.str vl) =>
        some ⟨id, nm, ins, vl⟩
    | _, _, _, _ => none
  | _ => none

/-- Structured counterpart of the `Error` messages thrown by geocache.ts. -/
inductive GeoErr where
  /-- `Cache ${id} already exists` -/
  | cacheExists (id : String)
  /-- `Cache ${id} does not exist` -/
  | cacheNotFound (id : String)
  /-- `Log ${id} already exists` -/
  | logExists (id : String)
  /-- `Log ${id} does not exist` -/
  | logNotFound (id : String)
  /-- `Trackable ${id} already exists` -/
  | trackableExists (id : String)
  /-- `Trackable ${id} does not exist` -/
  | trackableNotFound (id : String)
  /-- `Not maintainer` -/
  | notMaintainer
  /-- `Wrong Pass!` -/
  | wrongPass
  /-- `Trackable ${id} is already inserted` -/
  | alreadyInserted (id : String)
  /-- `Trackable ${id} is not inserted` -/
  | notInserted (id : String)
  /-- `Trackable ${id} is not owned by ${user}` -/
  | notOwned (id : String) (user : String)
  /-- `Visitlog ${id} is not made by ${user}` -/
  | logNotMadeBy (id : String) (user : String)
  /-- `Visitlog ${id} is before ${old}` -/
  | logBefore (id : String) (old : String)
  /-- `Trackable ${tid} and Visitlog ${lid} is for different caches` -/
  | differentCaches (tid : String) (lid : String)
  /-- `JSON.parse` throwing on absent/empty bytes. -/
  | parseFailure
  deriving DecidableEq, Repr

/-- The world state: `none` models an absent key (for which Fabric's
`getState` yields an empty byte array). -/
def Ledger : Type := String → Option Json

/-- A ledger with no records. -/
def emptyLedger : Ledger := fun _ => none

/-- `ctx.stub.putState(key, bytes)`. -/
def lputState (st : Ledger) (key : String) (v : Json) : Ledger :=
  fun k => if k = key then some v else st k

/-- `makeCacheID`: `CACHE-${id}`. -/
def makeCacheID (id : String) : String := "CACHE-" ++ id

/-- `makeLogID`: `LOG-${id}`. -/
def makeLogID (id : String) : String := "LOG-" ++ id

/-- `makeTrackableID`: `TRACKABLE-${id}`. -/
def makeTrackableID (id : String) : String := "TRACKABLE-" ++ id

/-- `CacheExists`: `getState(makeCacheID(id))` yields nonempty data. -/
def CacheExists (st : Ledger) (id : String) : Bool :=
  (st (makeCacheID id)).isSome

/-- `LogExists`: `getState(makeLogID(id))` yields nonempty data. -/
def LogExists (st : Ledger) (id : String) : Bool :=
  (st (makeLogID id)).isSome

/-- `TrackableExists`: `getState(makeTrackableID(id))` yields nonempty data. -/
def TrackableExists (st : Ledger) (id : String) : Bool :=
  (st (makeTrackableID id)).isSome

/-- `this.deserializeCache(await ctx.stub.getState(key))`: `JSON.parse`
throws on the empty bytes of an absent key; a well-formed stored value
parses to its record. -/
def readCache (st : Ledger) (key : String) : Except GeoErr Cache :=
  match st key with
  | none => .error .parseFailure
  | some j =>
    match deserializeCacheJ j with
    | some c => .ok c
    | none => .error .parseFailure

/-- `this.deserializeLog(await ctx.stub.getState(key))`. -/
def readLog (st : Ledger) (key : String) : Except GeoErr VisitLog :=
  match st key with
  | none => .error .parseFailure
  | some j =>
    match deserializeLogJ j with
    | some v => .ok v
    | none => .error .parseFailure

/-- `this.deserializeTrackable(await ctx.stub.getState(key))`. -/
def readTrackable (st : Ledger) (key : String) : Except GeoErr Trackable :=
  match st key with
  | none => .error .parseFailure
  | some j =>
    match deserializeTrackableJ j with
    | some t => .ok t
    | none => .error .parseFailure

/-- `isMaintainer`: caller identity equals the record's maintainer. -/
def isMaintainer (u : String) (id : String) : Bool := u == id

/-- `hideHiddenValues`.  In the source, `let newCache: Cache = cache` binds
an alias of the argument object, so the subsequent `newCache.Pass = ""`
mutates the caller's object as well.  The result pair is
(returned record, the argument object as it stands after the call). -/
def hideHiddenValues (u : String) (cache : Cache) : Cache × Cache :=
  let newCache : Cache :=
    if isMaintainer u cache.Maintainer then cache else { cache with Pass := "" }
  (newCache, newCache)

/-- `CreateCache(ctx, CacheID, Name, Description, GPSX, GPSY, Pass)`:
reject if present, set Maintainer to the caller, Report to empty, write. -/
def CreateCache (u : String) (st : Ledger) (CacheID Name Description : String)
    (GPSX GPSY : Int) (Pass : String) : Except GeoErr (Cache × Ledger) :=
  if CacheExists st CacheID then .error (.cacheExists CacheID) else
  let cache : Cache := ⟨CacheID, Name, Description, GPSX, GPSY, "", Pass, u⟩
  .ok (cache, lputState st (makeCacheID CacheID) (serializeCacheJson cache))

/-- `GetCache(ctx, CacheID)`: existence check, load, redact via
`hideHiddenValues` (whose first component is the returned object). -/
def GetCache (u : String) (st : Ledger) (CacheID : String) :
    Except GeoErr Cache :=
  if !CacheExists st CacheID then .error (.cacheNotFound CacheID) else
  match readCache st (makeCacheID CacheID) with
  | .error e => .error e
  | .ok c => .ok (hideHiddenValues u c).1

/-- `UpdateCache(ctx, CacheID, Name, Description, GPSX, GPSY, Pass, Report)`:
existence check, maintainer gate, write back with the stored Maintainer. -/
def UpdateCache (u : String) (st : Ledger) (CacheID Name Description : String)
    (GPSX GPSY : Int) (Pass Report : String) : Except GeoErr (Cache × Ledger) :=
  if !CacheExists st CacheID then .error (.cacheNotFound CacheID) else
  match readCache st (makeCacheID CacheID) with
  | .error e => .error e
  | .ok stored =>
    let Maintainer := stored.Maintainer
    if u ≠ Maintainer then .error .notMaintainer else
    let cache : Cache := ⟨CacheID, Name, Description, GPSX, GPSY, Report, Pass, Maintainer⟩
    .ok (cache, lputState st (makeCacheID CacheID) (serializeCacheJson cache))

/-- `ReportCache(ctx, CacheID, Report)`: existence check, replace only the
Report field, write, return the redacted new record. -/
def ReportCache (u : String) (st : Ledger) (CacheID Report : String) :
    Except GeoErr (Cache × Ledger) :=
  if !CacheExists st CacheID then .error (.cacheNotFound CacheID) else
  match readCache st (makeCacheID CacheID) with
  | .error e => .error e
  | .ok oldCache =>
    let newcache : Cache := ⟨CacheID, oldCache.Name, oldCache.Description,
      oldCache.GPSX, oldCache.GPSY, Report, oldCache.Pass, oldCache.Maintainer⟩
    let st1 := lputState st (makeCacheID CacheID) (serializeCacheJson newcache)
    .ok ((hideHiddenValues u newcache).1, st1)

/-- `CreateLog(ctx, LogID, CacheID, Pass)`; the `new Date().toISOString()`
timestamp is threaded in as `now`. -/
def CreateLog (u : String) (st : Ledger) (LogID CacheID Pass : String)
    (now : String) : Except GeoErr (VisitLog × Ledger) :=
  if !CacheExists st CacheID then .error (.cacheNotFound CacheID) else
  if LogExists st LogID then .error (.logExists LogID) else
  match readCache st (makeCacheID CacheID) with
  | .error e => .error e
  | .ok cache =>
    if Pass ≠ cache.Pass then .error .wrongPass else
    let visitLog : VisitLog := ⟨LogID, some [], u, CacheID, now⟩
    .ok (visitLog, lputState st (makeLogID LogID) (serializeLogJson visitLog))

/-- `GetLog(ctx, ID)`: the existence check uses `makeLogID(ID)`, but the
load is `ctx.stub.getState(ID)` — the raw, unprefixed id (source line 148). -/
def GetLog (st : Ledger) (ID : String) : Except GeoErr VisitLog :=
  if !LogExists st ID then .error (.logNotFound ID) else
  readLog st ID

/-- `CreateTrackable(ctx, TrackableID, LogID, Name)`: log must exist,
trackable id must be fresh, caller must have authored the log; writes the
trackable and appends `${TrackableID}-IN` to the log's `Trackables`
(`[...(log.Trackables || []), tag]`). -/
def CreateTrackable (u : String) (st : Ledger) (TrackableID LogID Name : String) :
    Except GeoErr (Trackable × Ledger) :=
  if !LogExists st LogID then .error (.logNotFound LogID) else
  if TrackableExists st TrackableID then .error (.trackableExists TrackableID) else
  match readLog st (makeLogID LogID) with
  | .error e => .error e
  | .ok newVisitLog =>
    if u ≠ newVisitLog.User then .error (.logNotMadeBy LogID u) else
    let trackable : Trackable := ⟨TrackableID, Name, true, LogID⟩
    let newVisitLogEdited : VisitLog := ⟨newVisitLog.ID,
      some (newVisitLog.Trackables.getD [] ++ [TrackableID ++ "-IN"]),
      newVisitLog.User, newVisitLog.Cache, newVisitLog.Time⟩
    let st1 := lputState st (makeTrackableID TrackableID) (serializeTrackableJson trackable)
    let st2 := lputState st1 (makeLogID newVisitLog.ID) (serializeLogJson newVisitLogEdited)
    .ok (trackable, st2)

/-- `InsertTrackable(ctx, TrackableID, LogID)`: the full validation chain of
source lines 210-238, in source order (log existence, trackable existence,
not-already-inserted, old/new user match, caller gate, temporal order),
then the two writes. -/
def InsertTrackable (u : String) (st : Ledger) (TrackableID LogID : String) :
    Except GeoErr (Trackable × Ledger) :=
  if !LogExists st LogID then .error (.logNotFound LogID) else
  if !TrackableExists st TrackableID then .error (.trackableNotFound TrackableID) else
  match readTrackable st (makeTrackableID TrackableID) with
  | .error e => .error e
  | .ok trackable =>
    if trackable.Inserted = true then .error (.alreadyInserted TrackableID) else
    match readLog st (makeLogID trackable.VisitLog), readLog st (makeLogID LogID) with
    | .error e, _ => .error e
    | .ok _, .error e => .error e
    | .ok oldVisitLog, .ok newVisitLog =>
      if oldVisitLog.User ≠ newVisitLog.User then .error (.notOwned TrackableID newVisitLog.User) else
      if u ≠ newVisitLog.User then .error (.logNotMadeBy LogID u) else
      if newVisitLog.Time ≤ oldVisitLog.Time then .error (.logBefore LogID trackable.VisitLog) else
      let newTrackable : Trackable := ⟨TrackableID, trackable.Name, true, LogID⟩
      let newVisitLogEdited : VisitLog := ⟨newVisitLog.ID,
        some (newVisitLog.Trackables.getD [] ++ [TrackableID ++ "-IN"]),
        newVisitLog.User, newVisitLog.Cache, newVisitLog.Time⟩
      let st1 := lputState st (makeTrackableID TrackableID) (serializeTrackableJson newTrackable)
      let st2 := lputState st1 (makeLogID newVisitLog.ID) (serializeLogJson newVisitLogEdited)
      .ok (newTrackable, st2)

/-- `RemoveTrackable(ctx, TrackableID, LogID)`: the validation chain of
source lines 255-283 (log existence, trackable existence, inserted, caller
gate, temporal order, same-cache), then the two writes. -/
def RemoveTrackable (u : String) (st : Ledger) (TrackableID LogID : String) :
    Except GeoErr (Trackable × Ledger) :=
  if !LogExists st LogID then .error (.logNotFound LogID) else
  if !TrackableExists st TrackableID then .error (.trackableNotFound TrackableID) else
  match readTrackable st (makeTrackableID TrackableID) with
  | .error e => .error e
  | .ok trackable =>
    if trackable.Inserted ≠ true then .error (.notInserted TrackableID) else
    match readLog st (makeLogID trackable.VisitLog), readLog st (makeLogID LogID) with
    | .error e, _ => .error e
    | .ok _, .error e => .error e
    | .ok oldVisitLog, .ok newVisitLog =>
      if u ≠ newVisitLog.User then .error (.logNotMadeBy LogID u) else
      if newVisitLog.Time ≤ oldVisitLog.Time then .error (.logBefore LogID trackable.VisitLog) else
      if newVisitLog.Cache ≠ oldVisitLog.Cache then .error (.differentCaches TrackableID LogID) else
      let newTrackable : Trackable := ⟨TrackableID, trackable.Name, false, LogID⟩
      let newVisitLogEdited : VisitLog := ⟨newVisitLog.ID,
        some (newVisitLog.Trackables.getD [] ++ [TrackableID ++ "-OUT"]),
        newVisitLog.User, newVisitLog.Cache, newVisitLog.Time⟩
      let st1 := lputState st (makeTrackableID TrackableID) (serializeTrackableJson newTrackable)
      let st2 := lputState st1 (makeLogID newVisitLog.ID) (serializeLogJson newVisitLogEdited)
      .ok (newTrackable, st2)

/-- `GetTrackable(ctx, TrackableID)`: existence check, plain prefixed load. -/
def GetTrackable (st : Ledger) (TrackableID : String) : Except GeoErr Trackable :=
  if !TrackableExists st TrackableID then .error (.trackableNotFound TrackableID) else
  readTrackable st (makeTrackableID TrackableID)

/-- Decoding a rendered string list gives it back. -/
theorem decodeStrList_map (ts : List String) :
    decodeStrList (ts.map Json.str) = some ts := by
  induction ts with
  | nil => rfl
  | cons s rest ih => simp [decodeStrList, ih]

/-- Deserializing a serialized cache reconstructs the record. -/
theorem deserializeCacheJ_serialize (c : Cache) :
    deserializeCacheJ (serializeCacheJson c) = some c := rfl

/-- Deserializing a serialized visit log reconstructs the record. -/
theorem deserializeLogJ_serialize (v : VisitLog) :
    deserializeLogJ (serializeLogJson v) = some v := by
  cases v with
  | mk id tr us ca ti =>
    cases tr with
    | none => rfl
    | some ts => simp [serializeLogJson, deserializeLogJ, jsonLookup, decodeStrList_map]

/-- Deserializing a serialized trackable reconstructs the record. -/
theorem deserializeTrackableJ_serialize (t : Trackable) :
    deserializeTrackableJ (serializeTrackableJson t) = some t := rfl

/-- Reading a ledger cell that holds a serialized cache yields the record. -/
theorem readCache_of_stored {st : Ledger} {key : String} {c : Cache}
    (h : st key = some (serializeCacheJson c)) : readCache st key = .ok c := by
  simp [readCache, h, deserializeCacheJ_serialize]

/-- Reading a ledger cell that holds a serialized visit log yields the
record. -/
theorem readLog_of_stored {st : Ledger} {key : String} {v : VisitLog}
    (h : st key = some (serializeLogJson v)) : readLog st key = .ok v := by
  simp [readLog, h, deserializeLogJ_serialize]

/-- Reading a ledger cell that holds a serialized trackable yields the
record. -/
theorem readTrackable_of_stored {st : Ledger} {key : String} {t : Trackable}
    (h : st key = some (serializeTrackableJson t)) :
    readTrackable st key = .ok t := by
  simp [readTrackable, h, deserializeTrackableJ_serialize]

/-- A well-formed visit log, stored at its `LOG-` prefixed key. -/
def c1Log : VisitLog :=
  ⟨"log1", some [], "alice", "cache1", "2021-01-01T00:00:00Z"⟩

/-- A ledger holding exactly the visit log `c1Log` under `LOG-log1`. -/
def c1St : Ledger := lputState emptyLedger (makeLogID "log1") (serializeLogJson c1Log)

/-- C1: for a stored visit log, the existence check passes (it uses the
`LOG-` prefixed key), yet `GetLog` does NOT return the stored record: its
load reads the raw, unprefixed id, which is absent, so `JSON.parse` throws
on the empty bytes.  The claim — that the lookup reads the same key the
existence check and `CreateLog` use — is right about the intent and the
code is wrong (`getState(ID)` instead of `getState(this.makeLogID(ID))`). -/
theorem C1_getlog_reads_unprefixed_key :
    LogExists c1St "log1" = true ∧
    c1St "log1" = none ∧
    GetLog c1St "log1" = .error .parseFailure := by
  refine ⟨rfl, rfl, rfl⟩

/-- A cache record whose Pass is a nonempty secret and whose maintainer is
"alice". -/
def c2Cache : Cache :=
  ⟨"cache1", "Cache 1", "This is cache 1", 12, 36, "", "secret", "alice"⟩

/-- C2 counterexample: `hideHiddenValues` is NOT a pure copy operation.
`let newCache: Cache = cache` aliases the argument, so clearing `Pass`
for the non-maintainer caller "bob" mutates the record that was passed
in: after the call the argument object no longer equals its original
value, refuting the claim's "the input record passed to it is left
unchanged". -/
theorem C2_redact_mutates_input :
    ¬ ((hideHiddenValues "bob" c2Cache).2 = c2Cache) := by
  decide

/-- C2 amended: `hideHiddenValues` returns the record with `Pass` cleared
to empty unless the caller is the Maintainer — but it performs this by
mutating its argument in place, so the argument object after the call is
the very record returned (the two alias), not the original input. -/
theorem C2_redact_amended (u : String) (c : Cache) :
    (hideHiddenValues u c).1 =
      (if u = c.Maintainer then c else { c with Pass := "" }) ∧
    (hideHiddenValues u c).2 = (hideHiddenValues u c).1 := by
  constructor
  · by_cases h : u = c.Maintainer <;> simp [hideHiddenValues, isMaintainer, h]
  · rfl

/-- C3 counterexample: on a ledger where neither the trackable nor the new
log exists, both `InsertTrackable` and `RemoveTrackable` fail for the LOG,
not the trackable — `assertLogExists` runs before `assertTrackableExists`
(source lines 211-212 and 256-257) — refuting "fails with NotFound for the
trackable regardless of whether the new log exists". -/
theorem C3_log_checked_before_trackable :
    TrackableExists emptyLedger "t1" = false ∧
    InsertTrackable "alice" emptyLedger "t1" "l1" = .error (.logNotFound "l1") ∧
    RemoveTrackable "alice" emptyLedger "t1" "l1" = .error (.logNotFound "l1") := by
  refine ⟨rfl, rfl, rfl⟩

/-- C3 amended: the existence checks run in the opposite order — new log
first, then trackable — so the operations fail with NotFound for the
trackable exactly when the trackable is absent AND the new log exists. -/
theorem C3_trackable_notfound_after_log_check
    (u tid lid : String) (st : Ledger)
    (htr : st (makeTrackableID tid) = none)
    (hlog : (st (makeLogID lid)).isSome = true) :
    InsertTrackable u st tid lid = .error (.trackableNotFound tid) ∧
    RemoveTrackable u st tid lid = .error (.trackableNotFound tid) := by
  constructor <;>
    simp [InsertTrackable, RemoveTrackable, LogExists, TrackableExists, htr, hlog]

/-- A ledger holding only the visit log `c1Log`-shaped record under
`LOG-l1`, with no trackables. -/
def c3St : Ledger :=
  lputState emptyLedger (makeLogID "l1")
    (serializeLogJson ⟨"l1", some [], "alice", "cache1", "2021-01-01T00:00:00Z"⟩)

/-- Witness for the amended C3 at a concrete ledger: the trackable "t1" is
absent, the log "l1" exists, and both operations report the trackable as
not found. -/
theorem C3_trackable_notfound_witness :
    InsertTrackable "alice" c3St "t1" "l1" = .error (.trackableNotFound "t1") ∧
    RemoveTrackable "alice" c3St "t1" "l1" = .error (.trackableNotFound "t1") :=
  C3_trackable_notfound_after_log_check "alice" "t1" "l1" c3St rfl rfl

/-- C4: once the existence, state, and ownership checks pass, both
`InsertTrackable` and `RemoveTrackable` fail with the temporal-order error
exactly when the new log's Time is lexicographically ≤ the old log's Time;
strict `newLog.Time > oldLog.Time` is required to proceed.  The error
result carries no ledger, reflecting that the source throws before any
`putState`, so no record is written on that failure. -/
theorem C4_temporal_order_gate :
    (∀ (u : String) (st : Ledger) (tid lid : String) (tr : Trackable)
      (oldV newV : VisitLog),
      st (makeLogID lid) = some (serializeLogJson newV) →
      st (makeTrackableID tid) = some (serializeTrackableJson tr) →
      st (makeLogID tr.VisitLog) = some (serializeLogJson oldV) →
      tr.Inserted = false →
      oldV.User = newV.User →
      u = newV.User →
      (InsertTrackable u st tid lid = .error (.logBefore lid tr.VisitLog) ↔
        newV.Time ≤ oldV.Time)) ∧
    (∀ (u : String) (st : Ledger) (tid lid : String) (tr : Trackable)
      (oldV newV : VisitLog),
      st (makeLogID lid) = some (serializeLogJson newV) →
      st (makeTrackableID tid) = some (serializeTrackableJson tr) →
      st (makeLogID tr.VisitLog) = some (serializeLogJson oldV) →
      tr.Inserted = true →
      u = newV.User →
      (RemoveTrackable u st tid lid = .error (.logBefore lid tr.VisitLog) ↔
        newV.Time ≤ oldV.Time)) := by
  constructor
  · intro u st tid lid tr oldV newV hnew htr hold hins husers hcaller
    have hL : LogExists st lid = true := by simp [LogExists, hnew]
    have hT : TrackableExists st tid = true := by simp [TrackableExists, htr]
    by_cases htime : newV.Time ≤ oldV.Time <;>
      simp [InsertTrackable, hL, hT, readTrackable_of_stored htr,
        readLog_of_stored hold, readLog_of_stored hnew, hins, husers, hcaller,
        htime]
  · intro u st tid lid tr oldV newV hnew htr hold hins hcaller
    have hL : LogExists st lid = true := by simp [LogExists, hnew]
    have hT : TrackableExists st tid = true := by simp [TrackableExists, htr]
    by_cases htime : newV.Time ≤ oldV.Time <;>
      simp [RemoveTrackable, hL, hT, readTrackable_of_stored htr,
        readLog_of_stored hold, readLog_of_stored hnew, hins, hcaller, htime]
    split <;> simp

/-- A removed trackable bound to the old log "l0". -/
def c4Tr : Trackable := ⟨"t1", "Coin", false, "l0"⟩

/-- An inserted trackable bound to the old log "l0". -/
def c4TrIns : Trackable := ⟨"t1", "Coin", true, "l0"⟩

/-- Old log, authored by "alice" at cache "c1", dated 2021-01-01. -/
def c4Old : VisitLog := ⟨"l0", some [], "alice", "c1", "2021-01-01T00:00:00Z"⟩

/-- New log, authored by "alice" at cache "c1", dated 2020-12-31 — earlier
than the old log. -/
def c4New : VisitLog := ⟨"l1", some [], "alice", "c1", "2020-12-31T00:00:00Z"⟩

/-- Ledger for the C4 insert scenario: old log, new log, removed trackable. -/
def c4St : Ledger :=
  lputState (lputState (lputState emptyLedger
    (makeLogID "l0") (serializeLogJson c4Old))
    (makeLogID "l1") (serializeLogJson c4New))
    (makeTrackableID "t1") (serializeTrackableJson c4Tr)

/-- Ledger for the C4 remove scenario: same, with the trackable inserted. -/
def c4StIns : Ledger :=
  lputState (lputState (lputState emptyLedger
    (makeLogID "l0") (serializeLogJson c4Old))
    (makeLogID "l1") (serializeLogJson c4New))
    (makeTrackableID "t1") (serializeTrackableJson c4TrIns)

/-- Witness for C4, at the spec's own example pair of timestamps
(old 2021-01-01, new 2020-12-31): both operations fail with the
temporal-order error. -/
theorem C4_temporal_order_gate_witness :
    InsertTrackable "alice" c4St "t1" "l1" = .error (.logBefore "l1" "l0") ∧
    RemoveTrackable "alice" c4StIns "t1" "l1" = .error (.logBefore "l1" "l0") := by
  constructor
  · exact (C4_temporal_order_gate.1 "alice" c4St "t1" "l1" c4Tr c4Old c4New
      rfl rfl rfl rfl rfl rfl).mpr (by rw [String.le_iff_toList_le]; decide)
  · exact (C4_temporal_order_gate.2 "alice" c4StIns "t1" "l1" c4TrIns c4Old c4New
      rfl rfl rfl rfl rfl).mpr (by rw [String.le_iff_toList_le]; decide)

/-- C7: for an existing, non-inserted trackable and an existing new log,
`InsertTrackable` fails with the not-owned (PermissionDenied) error whenever
the old log's User differs from the new log's User, regardless of the
caller; the error result carries no writes (the source throws before any
`putState`). -/
theorem C7_insert_requires_same_owner
    (u : String) (st : Ledger) (tid lid : String) (tr : Trackable)
    (oldV newV : VisitLog)
    (hnew : st (makeLogID lid) = some (serializeLogJson newV))
    (htr : st (makeTrackableID tid) = some (serializeTrackableJson tr))
    (hold : st (makeLogID tr.VisitLog) = some (serializeLogJson oldV))
    (hins : tr.Inserted = false)
    (hdiff : oldV.User ≠ newV.User) :
    InsertTrackable u st tid lid = .error (.notOwned tid newV.User) := by
  have hL : LogExists st lid = true := by simp [LogExists, hnew]
  have hT : TrackableExists st tid = true := by simp [TrackableExists, htr]
  simp [InsertTrackable, hL, hT, readTrackable_of_stored htr,
    readLog_of_stored hold, readLog_of_stored hnew, hins, hdiff]

/-- New log for the C7 scenario: same cache, later time, but authored by
"bob" while the old log is by "alice". -/
def c7New : VisitLog := ⟨"l1", some [], "bob", "c1", "2021-06-01T00:00:00Z"⟩

/-- Ledger for the C7 scenario. -/
def c7St : Ledger :=
  lputState (lputState (lputState emptyLedger
    (makeLogID "l0") (serializeLogJson c4Old))
    (makeLogID "l1") (serializeLogJson c7New))
    (makeTrackableID "t1") (serializeTrackableJson c4Tr)

/-- Witness for C7 at a concrete ledger where the old log is by "alice" and
the new log by "bob". -/
theorem C7_insert_requires_same_owner_witness :
    InsertTrackable "bob" c7St "t1" "l1" = .error (.notOwned "t1" "bob") :=
  C7_insert_requires_same_owner "bob" c7St "t1" "l1" c4Tr c4Old c7New
    rfl rfl rfl rfl (by decide)

/-- C8: for a `RemoveTrackable` call that passes the existence,
inserted-state, caller-identity, and temporal checks, a mismatch between
the new log's Cache and the old log's Cache fails with the
different-caches (Conflict) error; the error result carries no writes
(the source throws before any `putState`). -/
theorem C8_remove_requires_same_cache
    (u : String) (st : Ledger) (tid lid : String) (tr : Trackable)
    (oldV newV : VisitLog)
    (hnew : st (makeLogID lid) = some (serializeLogJson newV))
    (htr : st (makeTrackableID tid) = some (serializeTrackableJson tr))
    (hold : st (makeLogID tr.VisitLog) = some (serializeLogJson oldV))
    (hins : tr.Inserted = true)
    (hcaller : u = newV.User)
    (htime : ¬ newV.Time ≤ oldV.Time)
    (hcache : newV.Cache ≠ oldV.Cache) :
    RemoveTrackable u st tid lid = .error (.differentCaches tid lid) := by
  have hL : LogExists st lid = true := by simp [LogExists, hnew]
  have hT : TrackableExists st tid = true := by simp [TrackableExists, htr]
  simp [RemoveTrackable, hL, hT, readTrackable_of_stored htr,
    readLog_of_stored hold, readLog_of_stored hnew, hins, hcaller, htime,
    hcache]

/-- New log for the C8 scenario: same author, later time, different cache
site "c2". -/
def c8New : VisitLog := ⟨"l1", some [], "alice", "c2", "2021-06-01T00:00:00Z"⟩

/-- Ledger for the C8 scenario. -/
def c8St : Ledger :=
  lputState (lputState (lputState emptyLedger
    (makeLogID "l0") (serializeLogJson c4Old))
    (makeLogID "l1") (serializeLogJson c8New))
    (makeTrackableID "t1") (serializeTrackableJson c4TrIns)

/-- Witness for C8: all earlier checks pass and removal at a different
cache site fails with the different-caches error. -/
theorem C8_remove_requires_same_cache_witness :
    RemoveTrackable "alice" c8St "t1" "l1" = .error (.differentCaches "t1" "l1") :=
  C8_remove_requires_same_cache "alice" c8St "t1" "l1" c4TrIns c4Old c8New
    rfl rfl rfl rfl rfl (by rw [String.le_iff_toList_le]; decide) (by decide)

/-- C5: Maintainer is immutable after creation — a successful `UpdateCache`
writes back a record whose Maintainer equals the stored one (whatever the
caller supplies), and a successful `ReportCache` stores a record whose
Maintainer equals the stored one. -/
theorem C5_maintainer_immutable
    (u : String) (st : Ledger) (id : String) (old : Cache)
    (hold : st (makeCacheID id) = some (serializeCacheJson old)) :
    (∀ (Name Description : String) (GPSX GPSY : Int) (Pass Report : String)
      (c : Cache) (st1 : Ledger),
      UpdateCache u st id Name Description GPSX GPSY Pass Report = .ok (c, st1) →
      c.Maintainer = old.Maintainer ∧
      st1 (makeCacheID id) = some (serializeCacheJson c)) ∧
    (∀ (Report : String) (c : Cache) (st1 : Ledger),
      ReportCache u st id Report = .ok (c, st1) →
      ∃ w : Cache, st1 (makeCacheID id) = some (serializeCacheJson w) ∧
        w.Maintainer = old.Maintainer) := by
  have hE : CacheExists st id = true := by simp [CacheExists, hold]
  constructor
  · intro Name Description GPSX GPSY Pass Report c st1 h
    by_cases hu : u = old.Maintainer
    · simp [UpdateCache, hE, readCache_of_stored hold, hu] at h
      obtain ⟨hc, hst⟩ := h
      subst hc
      subst hst
      exact ⟨rfl, by simp [lputState]⟩
    · simp [UpdateCache, hE, readCache_of_stored hold, hu] at h
  · intro Report c st1 h
    simp [ReportCache, hE, readCache_of_stored hold] at h
    obtain ⟨hc, hst⟩ := h
    subst hst
    exact ⟨⟨id, old.Name, old.Description, old.GPSX, old.GPSY, Report,
      old.Pass, old.Maintainer⟩, by simp [lputState], rfl⟩

/-- The stored cache for the C5 scenario, maintained by "alice". -/
def c5Old : Cache := ⟨"cache1", "Old", "OldDesc", 3, 4, "", "pw", "alice"⟩

/-- A ledger holding exactly `c5Old`. -/
def c5St : Ledger :=
  lputState emptyLedger (makeCacheID "cache1") (serializeCacheJson c5Old)

/-- The record a successful `UpdateCache` by "alice" writes. -/
def c5Upd : Cache := ⟨"cache1", "N", "D", 1, 2, "r", "p", "alice"⟩

/-- The ledger after that `UpdateCache`. -/
def c5UpdSt : Ledger :=
  lputState c5St (makeCacheID "cache1") (serializeCacheJson c5Upd)

/-- The record a `ReportCache` by "bob" writes. -/
def c5Rep : Cache := ⟨"cache1", "Old", "OldDesc", 3, 4, "spam", "pw", "alice"⟩

/-- The ledger after that `ReportCache`. -/
def c5RepSt : Ledger :=
  lputState c5St (makeCacheID "cache1") (serializeCacheJson c5Rep)

/-- Witness for C5 at a concrete run: "alice" updates her cache (Maintainer
preserved and written), and "bob" reports it (the stored record still has
Maintainer "alice"). -/
theorem C5_maintainer_immutable_witness :
    (c5Upd.Maintainer = c5Old.Maintainer ∧
      c5UpdSt (makeCacheID "cache1") = some (serializeCacheJson c5Upd)) ∧
    (∃ w : Cache, c5RepSt (makeCacheID "cache1") = some (serializeCacheJson w) ∧
      w.Maintainer = c5Old.Maintainer) := by
  constructor
  · exact (C5_maintainer_immutable "alice" c5St "cache1" c5Old rfl).1
      "N" "D" 1 2 "p" "r" c5Upd c5UpdSt rfl
  · exact (C5_maintainer_immutable "bob" c5St "cache1" c5Old rfl).2
      "spam" { c5Rep with Pass := "" } c5RepSt rfl

/-- C6: after a successful `CreateCache` by identity `u`, the created record
has Maintainer `u` and Pass as supplied; `GetCache` immediately after
returns it with the full Pass to `u`, and with Pass cleared to "" to every
other caller. -/
theorem C6_create_then_read
    (u : String) (st : Ledger) (id Name Description : String)
    (GPSX GPSY : Int) (Pass : String) (c : Cache) (st1 : Ledger)
    (h : CreateCache u st id Name Description GPSX GPSY Pass = .ok (c, st1)) :
    c.Maintainer = u ∧ c.Pass = Pass ∧
    GetCache u st1 id = .ok c ∧
    (∀ v : String, v ≠ u → GetCache v st1 id = .ok { c with Pass := "" }) := by
  by_cases hex : CacheExists st id
  · simp [CreateCache, hex] at h
  · simp [CreateCache, hex] at h
    obtain ⟨hc, hst⟩ := h
    subst hc
    subst hst
    have hkey : lputState st (makeCacheID id)
        (serializeCacheJson ⟨id, Name, Description, GPSX, GPSY, "", Pass, u⟩)
        (makeCacheID id) =
        some (serializeCacheJson ⟨id, Name, Description, GPSX, GPSY, "", Pass, u⟩) := by
      simp [lputState]
    refine ⟨rfl, rfl, ?_, ?_⟩
    · simp [GetCache, CacheExists, hkey, readCache_of_stored hkey,
        hideHiddenValues, isMaintainer]
    · intro v hv
      simp [GetCache, CacheExists, hkey, readCache_of_stored hkey,
        hideHiddenValues, isMaintainer, hv]

/-- The cache "alice" creates in the C6 witness scenario. -/
def c6New : Cache := ⟨"c9", "Cache 9", "Desc 9", 7, 8, "", "secret", "alice"⟩

/-- The ledger after that creation. -/
def c6St1 : Ledger :=
  lputState emptyLedger (makeCacheID "c9") (serializeCacheJson c6New)

/-- Witness for C6 at a concrete creation by "alice", read back by "alice"
and by "bob". -/
theorem C6_create_then_read_witness :
    c6New.Maintainer = "alice" ∧ c6New.Pass = "secret" ∧
    GetCache "alice" c6St1 "c9" = .ok c6New ∧
    (∀ v : String, v ≠ "alice" → GetCache v c6St1 "c9" = .ok { c6New with Pass := "" }) :=
  C6_create_then_read "alice" emptyLedger "c9" "Cache 9" "Desc 9" 7 8 "secret"
    c6New c6St1 rfl

/-- C9: serialization round trip for every record kind.  `JSON.parse` of the
canonically rendered bytes is modelled by the rendered `Json` value itself
(parsing is the format-level inverse of rendering, external to this
repository), so `serialize(deserialize(serialize(r))) == serialize(r)`
byte for byte becomes: deserializing the serialized value yields a record
whose serialization renders to the same string. -/
theorem C9_serialize_roundtrip (c : Cache) (v : VisitLog) (t : Trackable) :
    Option.map serializeCacheStr (deserializeCacheJ (serializeCacheJson c)) =
      some (serializeCacheStr c) ∧
    Option.map serializeLogStr (deserializeLogJ (serializeLogJson v)) =
      some (serializeLogStr v) ∧
    Option.map serializeTrackableStr (deserializeTrackableJ (serializeTrackableJson t)) =
      some (serializeTrackableStr t) := by
  refine ⟨?_, ?_, ?_⟩
  · rw [deserializeCacheJ_serialize]; rfl
  · rw [deserializeLogJ_serialize]; rfl
  · rw [deserializeTrackableJ_serialize]; rfl

/-- C10: a stored visit log whose `Trackables` field is absent does not
break the trackable operations: `[...(log.Trackables || []), tag]` treats
the missing sequence as empty, so each operation succeeds when its other
preconditions hold and writes back a log whose `Trackables` is exactly the
one-element sequence holding the new movement tag. -/
theorem C10_missing_trackables_defaults_empty :
    (∀ (u : String) (st : Ledger) (tid lid Name : String) (nv : VisitLog),
      st (makeLogID lid) = some (serializeLogJson nv) →
      nv.Trackables = none →
      st (makeTrackableID tid) = none →
      u = nv.User →
      ∃ st2 : Ledger,
        CreateTrackable u st tid lid Name = .ok (⟨tid, Name, true, lid⟩, st2) ∧
        st2 (makeLogID nv.ID) =
          some (serializeLogJson ⟨nv.ID, some [tid ++ "-IN"], nv.User, nv.Cache, nv.Time⟩)) ∧
    (∀ (u : String) (st : Ledger) (tid lid : String) (tr : Trackable)
      (oldV nv : VisitLog),
      st (makeLogID lid) = some (serializeLogJson nv) →
      nv.Trackables = none →
      st (makeTrackableID tid) = some (serializeTrackableJson tr) →
      tr.Inserted = false →
      st (makeLogID tr.VisitLog) = some (serializeLogJson oldV) →
      oldV.User = nv.User →
      u = nv.User →
      ¬ nv.Time ≤ oldV.Time →
      ∃ st2 : Ledger,
        InsertTrackable u st tid lid = .ok (⟨tid, tr.Name, true, lid⟩, st2) ∧
        st2 (makeLogID nv.ID) =
          some (serializeLogJson ⟨nv.ID, some [tid ++ "-IN"], nv.User, nv.Cache, nv.Time⟩)) ∧
    (∀ (u : String) (st : Ledger) (tid lid : String) (tr : Trackable)
      (oldV nv : VisitLog),
      st (makeLogID lid) = some (serializeLogJson nv) →
      nv.Trackables = none →
      st (makeTrackableID tid) = some (serializeTrackableJson tr) →
      tr.Inserted = true →
      st (makeLogID tr.VisitLog) = some (serializeLogJson oldV) →
      u = nv.User →
      ¬ nv.Time ≤ oldV.Time →
      nv.Cache = oldV.Cache →
      ∃ st2 : Ledger,
        RemoveTrackable u st tid lid = .ok (⟨tid, tr.Name, false, lid⟩, st2) ∧
        st2 (makeLogID nv.ID) =
          some (serializeLogJson ⟨nv.ID, some [tid ++ "-OUT"], nv.User, nv.Cache, nv.Time⟩)) := by
  refine ⟨?_, ?_, ?_⟩
  · intro u st tid lid Name nv hnew htrNone htrAbs hu
    have hL : LogExists st lid = true := by simp [LogExists, hnew]
    have hT : TrackableExists st tid = false := by
      simp [TrackableExists, htrAbs]
    refine ⟨lputState
        (lputState st (makeTrackableID tid) (serializeTrackableJson ⟨tid, Name, true, lid⟩))
        (makeLogID nv.ID)
        (serializeLogJson ⟨nv.ID, some (nv.Trackables.getD [] ++ [tid ++ "-IN"]),
          nv.User, nv.Cache, nv.Time⟩), ?_, ?_⟩
    · simp [CreateTrackable, hL, hT, readLog_of_stored hnew, hu]
    · simp [lputState, htrNone]
  · intro u st tid lid tr oldV nv hnew htrNone htr hins hold husers hu htime
    have hL : LogExists st lid = true := by simp [LogExists, hnew]
    have hT : TrackableExists st tid = true := by simp [TrackableExists, htr]
    refine ⟨lputState
        (lputState st (makeTrackableID tid) (serializeTrackableJson ⟨tid, tr.Name, true, lid⟩))
        (makeLogID nv.ID)
        (serializeLogJson ⟨nv.ID, some (nv.Trackables.getD [] ++ [tid ++ "-IN"]),
          nv.User, nv.Cache, nv.Time⟩), ?_, ?_⟩
    · simp [InsertTrackable, hL, hT, readTrackable_of_stored htr,
        readLog_of_stored hold, readLog_of_stored hnew, hins, husers, hu,
        htime]
    · simp [lputState, htrNone]
  · intro u st tid lid tr oldV nv hnew htrNone htr hins hold hu htime hcache
    have hL : LogExists st lid = true := by simp [LogExists, hnew]
    have hT : TrackableExists st tid = true := by simp [TrackableExists, htr]
    refine ⟨lputState
        (lputState st (makeTrackableID tid) (serializeTrackableJson ⟨tid, tr.Name, false, lid⟩))
        (makeLogID nv.ID)
        (serializeLogJson ⟨nv.ID, some (nv.Trackables.getD [] ++ [tid ++ "-OUT"]),
          nv.User, nv.Cache, nv.Time⟩), ?_, ?_⟩
    · simp [RemoveTrackable, hL, hT, readTrackable_of_stored htr,
        readLog_of_stored hold, readLog_of_stored hnew, hins, hu, htime,
        hcache]
    · simp [lputState, htrNone]

/-- Old log with the `Trackables` field absent. -/
def c10Old : VisitLog := ⟨"l0", none, "alice", "c1", "2021-01-01T00:00:00Z"⟩

/-- New log with the `Trackables` field absent (same cache, later time,
same author). -/
def c10New : VisitLog := ⟨"l1", none, "alice", "c1", "2021-06-01T00:00:00Z"⟩

/-- A removed trackable bound to the old log. -/
def c10TrOut : Trackable := ⟨"t1", "Coin", false, "l0"⟩

/-- An inserted trackable bound to the old log. -/
def c10TrIn : Trackable := ⟨"t2", "Medal", true, "l0"⟩

/-- Ledger for the C10 scenarios: two logs without a `Trackables` field,
one removed and one inserted trackable. -/
def c10St : Ledger :=
  lputState (lputState (lputState (lputState emptyLedger
    (makeLogID "l0") (serializeLogJson c10Old))
    (makeLogID "l1") (serializeLogJson c10New))
    (makeTrackableID "t1") (serializeTrackableJson c10TrOut))
    (makeTrackableID "t2") (serializeTrackableJson c10TrIn)

/-- Witness for C10: on the concrete ledger whose logs lack `Trackables`,
creating "t9", inserting "t1", and removing "t2" through log "l1" all
succeed and write back a one-element `Trackables` sequence. -/
theorem C10_missing_trackables_defaults_empty_witness :
    (∃ st2 : Ledger,
      CreateTrackable "alice" c10St "t9" "l1" "Pin" = .ok (⟨"t9", "Pin", true, "l1"⟩, st2) ∧
      st2 (makeLogID "l1") =
        some (serializeLogJson ⟨"l1", some ["t9-IN"], "alice", "c1", "2021-06-01T00:00:00Z"⟩)) ∧
    (∃ st2 : Ledger,
      InsertTrackable "alice" c10St "t1" "l1" = .ok (⟨"t1", "Coin", true, "l1"⟩, st2) ∧
      st2 (makeLogID "l1") =
        some (serializeLogJson ⟨"l1", some ["t1-IN"], "alice", "c1", "2021-06-01T00:00:00Z"⟩)) ∧
    (∃ st2 : Ledger,
      RemoveTrackable "alice" c10St "t2" "l1" = .ok (⟨"t2", "Medal", false, "l1"⟩, st2) ∧
      st2 (makeLogID "l1") =
        some (serializeLogJson ⟨"l1", some ["t2-OUT"], "alice", "c1", "2021-06-01T00:00:00Z"⟩)) := by
  refine ⟨?_, ?_, ?_⟩
  · exact C10_missing_trackables_defaults_empty.1 "alice" c10St "t9" "l1" "Pin"
      c10New rfl rfl rfl rfl
  · exact C10_missing_trackables_defaults_empty.2.1 "alice" c10St "t1" "l1"
      c10TrOut c10Old c10New rfl rfl rfl rfl rfl rfl rfl
      (by rw [String.le_iff_toList_le]; decide)
  · exact C10_missing_trackables_defaults_empty.2.2 "alice" c10St "t2" "l1"
      c10TrIn c10Old c10New rfl rfl rfl rfl rfl rfl
      (by rw [String.le_iff_toList_le]; decide) rfl

end Geocache
